import Mathlib

/-!
Shallow embedding of the query.gg posts/todos/comments browser.

The repository is a thin UI over a data-fetching library; the parts embedded
here are the pure computations its hooks and components perform:
URL construction, response handling, pagination arithmetic, the recent-search
list update, and the rendering decisions of the page components.

HTTP responses are modelled as a record carrying the ok flag and the already
parsed JSON body; a query function that throws on a non-ok response is
modelled as returning Except.error with the thrown message.
-/

/-- A JSON value, as far as the embedded code inspects one. -/
inductive JsValue where
  | null
  | bool (b : Bool)
  | num (n : Int)
  | str (s : String)
  deriving DecidableEq, Repr

/-- A JavaScript object: ordered own properties, as serialized by
JSON.stringify. Keys are unique in any object produced by the language. -/
abbrev JsObject := List (String × JsValue)

/-- DTO from src/types/post.ts, interface IPost. -/
structure IPost where
  id : String
  title : String
  body : String
  tags : List String
  imageUrl : Option String
  userId : String
  deriving DecidableEq, Repr

/-- DTO from src/types/post.ts, interface IPostResponse. -/
structure IPostResponse where
  posts : List IPost
  total : Nat
  skip : Nat
  limit : Nat
  deriving DecidableEq, Repr

/-- Nested address record of IUser (src/types/user.ts). -/
structure IUserAddress where
  address : String
  city : String
  state : String
  deriving DecidableEq, Repr

/-- DTO from src/types/user.ts, interface IUser. -/
structure IUser where
  id : String
  firstName : String
  lastName : String
  age : Nat
  gender : String
  email : String
  image : String
  birthDate : String
  address : IUserAddress
  country : String
  deriving DecidableEq, Repr

/-- Embedded partial user of a comment (src/types/comment.ts). -/
structure ICommentUser where
  id : String
  fullName : String
  deriving DecidableEq, Repr

/-- DTO from src/types/comment.ts, interface IComment. -/
structure IComment where
  id : String
  body : String
  postId : String
  user : ICommentUser
  deriving DecidableEq, Repr

/-- DTO from src/types/comment.ts, interface ICommentResponse. -/
structure ICommentResponse where
  comments : List IComment
  total : Nat
  skip : Nat
  limit : Nat
  deriving DecidableEq, Repr

/-- DTO from src/types/todo.ts, interface ITodo. -/
structure ITodo where
  id : String
  todo : String
  completed : Bool
  userId : String
  deriving DecidableEq, Repr

/-- DTO from src/types/todo.ts, interface ITodoResponse. -/
structure ITodoResponse where
  todos : List ITodo
  total : Nat
  skip : Nat
  limit : Nat
  deriving DecidableEq, Repr

/-- An HTTP response as seen by the hooks: the ok flag of the fetch Response
and the JSON body it parses on the success path. -/
structure HttpResponse (α : Type) where
  ok : Bool
  body : α
  deriving DecidableEq, Repr

/-- Response handling of the queryFn of useGetPosts
(src/hooks/custom/use-get-posts.ts): throws "Error fetching data" when the
response is not ok, otherwise returns the body as IPostResponse. -/
def useGetPostsQueryFn (response : HttpResponse IPostResponse) :
    Except String IPostResponse :=
  if !response.ok then Except.error "Error fetching data"
  else Except.ok response.body

/-- Response handling of the queryFn of getPosts
(src/hooks/custom/use-posts.ts): same shape as useGetPostsQueryFn. -/
def getPostsQueryFn (response : HttpResponse IPostResponse) :
    Except String IPostResponse :=
  if !response.ok then Except.error "Error fetching data"
  else Except.ok response.body

/-- Response handling of the queryFn of useSearchPosts
(src/hooks/custom/use-search-posts.ts): throws on a non-ok response,
otherwise returns data.posts. -/
def useSearchPostsQueryFn (response : HttpResponse IPostResponse) :
    Except String (List IPost) :=
  if !response.ok then Except.error "Error fetching data"
  else Except.ok response.body.posts

/-- Constant from src/hooks/custom/use-todos.ts. -/
def MAX_TODO_PER_PAGE : Nat := 15

/-- Return shape of getTodos (src/hooks/custom/use-todos.ts). -/
structure PaginatedTodos where
  todos : List ITodo
  currentPage : Nat
  totalItems : Nat
  totalPages : Nat
  deriving DecidableEq, Repr

/-- URL built by getTodos (src/hooks/custom/use-todos.ts) for a page number:
limit is MAX_TODO_PER_PAGE and skip is (page - 1) * MAX_TODO_PER_PAGE. -/
def getTodosUrl (page : Nat) : String :=
  "https://dummyjson.com/todos?limit=" ++ toString MAX_TODO_PER_PAGE ++
    "&skip=" ++ toString ((page - 1) * MAX_TODO_PER_PAGE)

/-- Response handling of getTodos (src/hooks/custom/use-todos.ts): throws
"Failed to fetch todos" when the response is not ok; otherwise computes
totalPages as the ceiling of total / limit and currentPage as the floor of
skip / limit plus one, with JavaScript real division embedded as division
in the rationals. -/
def getTodos (response : HttpResponse ITodoResponse) :
    Except String PaginatedTodos :=
  if !response.ok then Except.error "Failed to fetch todos"
  else
    let data := response.body
    Except.ok
      { todos := data.todos
        currentPage := ⌊(data.skip : ℚ) / (data.limit : ℚ)⌋₊ + 1
        totalItems := data.total
        totalPages := ⌈(data.total : ℚ) / (data.limit : ℚ)⌉₊ }

/-- getNextPageParam of useTodos (src/hooks/custom/use-todos.ts):
currentPage + 1 when currentPage is less than totalPages, else undefined. -/
def getNextPageParam (lastPage : PaginatedTodos) : Option Nat :=
  if lastPage.currentPage < lastPage.totalPages then
    some (lastPage.currentPage + 1)
  else none

/-- getPreviousPageParam of useTodos (src/hooks/custom/use-todos.ts):
currentPage - 1 when currentPage is greater than 1, else undefined. -/
def getPreviousPageParam (firstPage : PaginatedTodos) : Option Nat :=
  if firstPage.currentPage > 1 then some (firstPage.currentPage - 1)
  else none

example : getTodos { ok := true, body := { todos := [], total := 30, skip := 15, limit := 15 } } =
    Except.ok { todos := [], currentPage := 2, totalItems := 30, totalPages := 2 } := by
  norm_num [getTodos]

example : getTodosUrl 2 = "https://dummyjson.com/todos?limit=15&skip=15" := by decide

/-- JavaScript Math.floor of a quotient of naturals is natural division. -/
theorem natFloor_cast_div (a b : Nat) : ⌊(a : ℚ) / (b : ℚ)⌋₊ = a / b := by
  rw [Nat.floor_div_nat]
  simp

/-- JavaScript Math.ceil of a quotient of naturals is ceiling division. -/
theorem natCeil_cast_div (a b : Nat) (hb : 0 < b) : ⌈(a : ℚ) / (b : ℚ)⌉₊ = a ⌈/⌉ b := by
  apply le_antisymm
  · apply Nat.ceil_le.2
    rw [div_le_iff₀ (by exact_mod_cast hb)]
    have h := le_smul_ceilDiv (b := a) hb
    have h2 : (a : ℚ) ≤ (b * (a ⌈/⌉ b) : Nat) := by exact_mod_cast h
    push_cast at h2
    linarith
  · rw [ceilDiv_le_iff_le_mul hb]
    have h := Nat.le_ceil ((a : ℚ) / (b : ℚ))
    rw [div_le_iff₀ (by exact_mod_cast hb)] at h
    have h3 : (a : ℚ) ≤ ((b * ⌈(a : ℚ) / (b : ℚ)⌉₊ : Nat) : ℚ) := by push_cast; linarith
    exact_mod_cast h3

/-- C2: the todos infinite-query pagination is internally consistent: for every
page number p at least 1, getTodos requests limit = MAX_TODO_PER_PAGE = 15 and
skip = (p - 1) * 15; on a response with fields total, skip and limit it returns
currentPage = floor (skip / limit) + 1 and totalPages = ceil (total / limit);
getNextPageParam returns currentPage + 1 exactly when currentPage < totalPages
and undefined otherwise; getPreviousPageParam returns currentPage - 1 exactly
when currentPage > 1 and undefined otherwise. -/
theorem getTodos_pagination_consistent (page : Nat) (_hpage : 1 ≤ page)
    (resp : ITodoResponse) (hlimit : 0 < resp.limit) (pt : PaginatedTodos)
    (hpt : getTodos { ok := true, body := resp } = Except.ok pt) :
    getTodosUrl page =
      "https://dummyjson.com/todos?limit=15&skip=" ++ toString ((page - 1) * 15) ∧
    pt.currentPage = resp.skip / resp.limit + 1 ∧
    pt.totalPages = resp.total ⌈/⌉ resp.limit ∧
    (∀ n, getNextPageParam pt = some n ↔
      pt.currentPage < pt.totalPages ∧ n = pt.currentPage + 1) ∧
    (getNextPageParam pt = none ↔ ¬ pt.currentPage < pt.totalPages) ∧
    (∀ n, getPreviousPageParam pt = some n ↔
      1 < pt.currentPage ∧ n = pt.currentPage - 1) ∧
    (getPreviousPageParam pt = none ↔ ¬ 1 < pt.currentPage) := by
  simp only [getTodos, Bool.not_true, Bool.false_eq_true, if_false, Except.ok.injEq] at hpt
  subst hpt
  refine ⟨rfl, ?_, ?_, ?_, ?_, ?_, ?_⟩
  · simpa using natFloor_cast_div resp.skip resp.limit
  · simpa using natCeil_cast_div resp.total resp.limit hlimit
  · intro n
    simp only [getNextPageParam]
    split
    · simp only [Option.some.injEq]
      constructor
      · intro h
        exact ⟨by assumption, h.symm⟩
      · intro h
        exact h.2.symm
    · simp only [reduceCtorEq, false_iff, not_and]
      intro h
      exact absurd h (by assumption)
  · simp only [getNextPageParam]
    split
    · rename_i h
      exact iff_of_false (by simp) (not_not_intro h)
    · rename_i h
      exact iff_of_true rfl h
  · intro n
    simp only [getPreviousPageParam]
    split
    · simp only [Option.some.injEq]
      constructor
      · intro h
        exact ⟨by assumption, h.symm⟩
      · intro h
        exact h.2.symm
    · simp only [reduceCtorEq, false_iff, not_and]
      intro h
      exact absurd h (by assumption)
  · simp only [getPreviousPageParam]
    split
    · rename_i h
      exact iff_of_false (by simp) (not_not_intro h)
    · rename_i h
      exact iff_of_true rfl h

/-- JavaScript property assignment during object-literal evaluation: setting
key k to value v replaces the value in place when the key already exists,
otherwise appends the property. -/
def objSet : JsObject → String → JsValue → JsObject
  | [], k, v => [(k, v)]
  | p :: rest, k, v => if p.1 = k then (k, v) :: rest else p :: objSet rest k v

/-- Evaluation of an object literal that spreads updates over base: each own
property of updates is assigned in order, overriding base. -/
def objSpread (base updates : JsObject) : JsObject :=
  updates.foldl (fun acc kv => objSet acc kv.1 kv.2) base

/-- Request body serialized by addPost (src/hooks/custom/use-todos.ts):
JSON.stringify of the object literal carrying the default userId 5 first
and then the spread of the input data, which overrides it. -/
def addPostBody (data : JsObject) : JsObject :=
  objSpread [("userId", JsValue.num 5)] data

/-- Response handling of addPost (src/hooks/custom/use-todos.ts): the parsed
body is returned directly; the function performs no ok check. -/
def addPostHandle (res : HttpResponse JsObject) : Except String JsObject :=
  Except.ok res.body

/-- Property access on the embedded object. -/
def objGet (o : JsObject) (k : String) : Option JsValue := o.lookup k

theorem lookup_cons_eq (a : String) (b : JsValue) (rest : JsObject) (q : String) :
    List.lookup q ((a, b) :: rest) = if q = a then some b else List.lookup q rest := by
  by_cases h : q = a
  · subst h
    simp [List.lookup]
  · have hb : (q == a) = false := beq_eq_false_iff_ne.mpr h
    simp [List.lookup, hb, h]

theorem objGet_objSet (o : JsObject) (k q : String) (v : JsValue) :
    objGet (objSet o k v) q = if q = k then some v else objGet o q := by
  induction o with
  | nil =>
    show List.lookup q ((k, v) :: ([] : JsObject)) = if q = k then some v else none
    rw [lookup_cons_eq]
    simp [List.lookup]
  | cons p rest ih =>
    rcases p with ⟨a, b⟩
    simp only [objSet]
    by_cases hak : a = k
    · rw [if_pos hak]
      subst hak
      show List.lookup q ((a, v) :: rest) =
        if q = a then some v else List.lookup q ((a, b) :: rest)
      rw [lookup_cons_eq, lookup_cons_eq]
      by_cases hqa : q = a
      · simp [hqa]
      · simp [hqa]
    · rw [if_neg hak]
      show List.lookup q ((a, b) :: objSet rest k v) =
        if q = k then some v else List.lookup q ((a, b) :: rest)
      rw [lookup_cons_eq, lookup_cons_eq]
      by_cases hqa : q = a
      · have hqk : ¬ q = k := fun hh => hak (hqa ▸ hh)
        rw [if_pos hqa, if_neg hqk, if_pos hqa]
      · rw [if_neg hqa, if_neg hqa]
        exact ih

theorem lookup_eq_none_of_not_mem (o : JsObject) (k : String)
    (h : k ∉ o.map Prod.fst) : o.lookup k = none := by
  induction o with
  | nil => rfl
  | cons p rest ih =>
    rcases p with ⟨a, b⟩
    simp only [List.map_cons, List.mem_cons] at h
    push_neg at h
    rw [lookup_cons_eq, if_neg h.1, ih h.2]

theorem objGet_objSpread_none (updates : JsObject) :
    ∀ (base : JsObject) (q : String), updates.lookup q = none →
      objGet (objSpread base updates) q = objGet base q := by
  induction updates with
  | nil =>
    intro base q _
    rfl
  | cons p rest ih =>
    intro base q hq
    rcases p with ⟨k, v⟩
    have hqk : ¬ q = k := by
      intro hh
      rw [lookup_cons_eq, if_pos hh] at hq
      exact Option.noConfusion hq
    have hrest : rest.lookup q = none := by
      rwa [lookup_cons_eq, if_neg hqk] at hq
    have hstep : objSpread base ((k, v) :: rest) = objSpread (objSet base k v) rest := rfl
    rw [hstep, ih _ _ hrest, objGet_objSet, if_neg hqk]

theorem objGet_objSpread_mem (updates : JsObject) :
    ∀ (base : JsObject) (q : String) (v : JsValue),
      (updates.map Prod.fst).Nodup → updates.lookup q = some v →
      objGet (objSpread base updates) q = some v := by
  induction updates with
  | nil =>
    intro base q v _ hq
    exact Option.noConfusion hq
  | cons p rest ih =>
    intro base q v hnodup hq
    rcases p with ⟨k, w⟩
    simp only [List.map_cons, List.nodup_cons] at hnodup
    have hstep : objSpread base ((k, w) :: rest) = objSpread (objSet base k w) rest := rfl
    rw [hstep]
    by_cases hqk : q = k
    · have hv : w = v := by
        rw [lookup_cons_eq, if_pos hqk] at hq
        exact Option.some.inj hq
      have hrest : rest.lookup q = none := by
        apply lookup_eq_none_of_not_mem
        rw [hqk]
        exact hnodup.1
      rw [objGet_objSpread_none _ _ _ hrest, objGet_objSet, if_pos hqk, hv]
    · have hrest : rest.lookup q = some v := by
        rwa [lookup_cons_eq, if_neg hqk] at hq
      exact ih _ _ _ hnodup.2 hrest

/-- C1 counterexample: addPost performs no ok check; on a response whose ok
flag is false it still returns the parsed body instead of throwing. -/
theorem addPost_returns_body_on_not_ok :
    addPostHandle { ok := false, body := [("id", JsValue.num 1)] } =
      Except.ok [("id", JsValue.num 1)] := rfl

/-- C1 amended: every query function among the cited data hooks (useGetPosts,
getPosts, useSearchPosts, getTodos) throws an Error when the fetched response
has ok = false, but the post-creation mutation function addPost performs no
ok check and returns the parsed body for every response. -/
theorem nonOk_response_throws_except_addPost :
    (∀ r : HttpResponse IPostResponse, r.ok = false →
      useGetPostsQueryFn r = Except.error "Error fetching data") ∧
    (∀ r : HttpResponse IPostResponse, r.ok = false →
      getPostsQueryFn r = Except.error "Error fetching data") ∧
    (∀ r : HttpResponse IPostResponse, r.ok = false →
      useSearchPostsQueryFn r = Except.error "Error fetching data") ∧
    (∀ r : HttpResponse ITodoResponse, r.ok = false →
      getTodos r = Except.error "Failed to fetch todos") ∧
    (∀ r : HttpResponse JsObject, addPostHandle r = Except.ok r.body) := by
  refine ⟨?_, ?_, ?_, ?_, fun r => rfl⟩ <;>
    intro r h <;>
    simp [useGetPostsQueryFn, getPostsQueryFn, useSearchPostsQueryFn, getTodos, h]

/-- Witness for nonOk_response_throws_except_addPost on concrete non-ok
responses. -/
theorem nonOk_response_throws_except_addPost_witness :
    useGetPostsQueryFn { ok := false, body := IPostResponse.mk [] 0 0 0 } =
      Except.error "Error fetching data" ∧
    getPostsQueryFn { ok := false, body := IPostResponse.mk [] 0 0 0 } =
      Except.error "Error fetching data" ∧
    useSearchPostsQueryFn { ok := false, body := IPostResponse.mk [] 0 0 0 } =
      Except.error "Error fetching data" ∧
    getTodos { ok := false, body := ITodoResponse.mk [] 0 0 0 } =
      Except.error "Failed to fetch todos" ∧
    addPostHandle { ok := true, body := [] } = Except.ok [] :=
  ⟨nonOk_response_throws_except_addPost.1 _ rfl,
   nonOk_response_throws_except_addPost.2.1 _ rfl,
   nonOk_response_throws_except_addPost.2.2.1 _ rfl,
   nonOk_response_throws_except_addPost.2.2.2.1 _ rfl,
   nonOk_response_throws_except_addPost.2.2.2.2 _⟩

/-- C9: the serialized request body of addPost keeps every field of the input
unchanged, and carries userId = 5 exactly when the input has no userId field
of its own (an input userId overrides the default, because the default is
spread before the input). -/
theorem addPost_body_preserves_fields (data : JsObject)
    (hnodup : (data.map Prod.fst).Nodup) :
    (∀ k v, data.lookup k = some v → objGet (addPostBody data) k = some v) ∧
    (data.lookup "userId" = none →
      objGet (addPostBody data) "userId" = some (JsValue.num 5)) := by
  constructor
  · intro k v hkv
    exact objGet_objSpread_mem _ _ _ _ hnodup hkv
  · intro hnone
    rw [addPostBody, objGet_objSpread_none _ _ _ hnone]
    rfl

/-- Witness for addPost_body_preserves_fields on a one-field input: the title
is kept and the default userId 5 is added; with an input that carries its own
userId, that value wins. -/
theorem addPost_body_preserves_fields_witness :
    (([("title", JsValue.str "hello")] : JsObject).map Prod.fst).Nodup ∧
    objGet (addPostBody [("title", JsValue.str "hello")]) "title" =
      some (JsValue.str "hello") ∧
    objGet (addPostBody [("title", JsValue.str "hello")]) "userId" =
      some (JsValue.num 5) ∧
    objGet (addPostBody [("userId", JsValue.num 9)]) "userId" =
      some (JsValue.num 9) :=
  ⟨by decide,
   (addPost_body_preserves_fields [("title", JsValue.str "hello")] (by decide)).1
     "title" (JsValue.str "hello") (by decide),
   (addPost_body_preserves_fields [("title", JsValue.str "hello")] (by decide)).2
     (by decide),
   (addPost_body_preserves_fields [("userId", JsValue.num 9)] (by decide)).1
     "userId" (JsValue.num 9) (by decide)⟩

/-- Witness for getTodos_pagination_consistent at page 2 and a concrete
response: 30 items in pages of 15, skip 15, giving current page 2 of 2. -/
theorem getTodos_pagination_consistent_witness :
    (getTodosUrl 2 =
      "https://dummyjson.com/todos?limit=15&skip=" ++ toString ((2 - 1) * 15) ∧
    (PaginatedTodos.mk [] 2 30 2).currentPage = 15 / 15 + 1 ∧
    (PaginatedTodos.mk [] 2 30 2).totalPages = 30 ⌈/⌉ 15 ∧
    (∀ n, getNextPageParam (PaginatedTodos.mk [] 2 30 2) = some n ↔
      (PaginatedTodos.mk [] 2 30 2).currentPage < (PaginatedTodos.mk [] 2 30 2).totalPages ∧
        n = (PaginatedTodos.mk [] 2 30 2).currentPage + 1) ∧
    (getNextPageParam (PaginatedTodos.mk [] 2 30 2) = none ↔
      ¬ (PaginatedTodos.mk [] 2 30 2).currentPage < (PaginatedTodos.mk [] 2 30 2).totalPages) ∧
    (∀ n, getPreviousPageParam (PaginatedTodos.mk [] 2 30 2) = some n ↔
      1 < (PaginatedTodos.mk [] 2 30 2).currentPage ∧
        n = (PaginatedTodos.mk [] 2 30 2).currentPage - 1) ∧
    (getPreviousPageParam (PaginatedTodos.mk [] 2 30 2) = none ↔
      ¬ 1 < (PaginatedTodos.mk [] 2 30 2).currentPage)) :=
  getTodos_pagination_consistent 2 (by decide)
    { todos := [], total := 30, skip := 15, limit := 15 } (by decide)
    (PaginatedTodos.mk [] 2 30 2) (by norm_num [getTodos])

/-- JavaScript truthiness of a string-or-null value: null and the empty
string are falsy. -/
def jsTruthy : Option String → Bool
  | none => false
  | some s => !(s == "")

/-- URL built by useGetPosts (src/hooks/custom/use-get-posts.ts): the base
URL already carries the limit=9 query string, and when both sortBy and order
are truthy the code appends a SECOND question mark followed by the sort
parameters. -/
def useGetPostsUrl (sortBy : Option String) (order : Option String) : String :=
  let url := "https://dummyjson.com/posts?limit=9"
  if jsTruthy sortBy && jsTruthy order then
    url ++ "?sortBy=" ++ sortBy.getD "" ++ "&order=" ++ order.getD ""
  else url

/-- URL built by getPosts (src/hooks/custom/use-posts.ts): the sort
parameters, when both truthy, are appended with an ampersand, extending the
single query string. -/
def getPostsUrl (sortBy : Option String) (order : Option String) : String :=
  "https://dummyjson.com/posts?limit=9" ++
    (if jsTruthy sortBy && jsTruthy order then
      "&sortBy=" ++ sortBy.getD "" ++ "&order=" ++ order.getD ""
    else "")

/-- Number of question marks in a string; a well-formed URL with a query
string has exactly one. -/
def countQMarks (s : String) : Nat := s.data.count '?'

/-- C4 is a code bug: for truthy sortBy and order, useGetPosts appends the
sort parameters after a second question mark, so the resulting URL is not a
single well-formed query string, while the parallel getPosts builds the
well-formed ampersand-separated form; with either parameter null, neither
URL carries sort parameters. -/
theorem useGetPosts_sort_url_malformed :
    useGetPostsUrl (some "title") (some "asc") =
      "https://dummyjson.com/posts?limit=9?sortBy=title&order=asc" ∧
    countQMarks (useGetPostsUrl (some "title") (some "asc")) = 2 ∧
    getPostsUrl (some "title") (some "asc") =
      "https://dummyjson.com/posts?limit=9&sortBy=title&order=asc" ∧
    countQMarks (getPostsUrl (some "title") (some "asc")) = 1 ∧
    useGetPostsUrl none (some "asc") = "https://dummyjson.com/posts?limit=9" ∧
    useGetPostsUrl (some "title") none = "https://dummyjson.com/posts?limit=9" ∧
    getPostsUrl none (some "asc") = "https://dummyjson.com/posts?limit=9" ∧
    getPostsUrl (some "title") none = "https://dummyjson.com/posts?limit=9" := by
  refine ⟨by decide, by decide, by decide, by decide, by decide, by decide, by decide, by decide⟩

/-- Longest leading run of decimal digits, as consumed by parseInt. -/
def digitsPrefixOf : List Char → List Char
  | [] => []
  | c :: cs => if c.isDigit then c :: digitsPrefixOf cs else []

/-- Decimal value of a digit string. -/
def digitsVal (l : List Char) : Nat :=
  l.foldl (fun acc c => acc * 10 + (c.toNat - 48)) 0

/-- JavaScript parseInt in base 10: skip leading whitespace, read an optional
sign and then the longest digit prefix; the result is NaN, modelled as none,
when no digit follows. -/
def parseIntJS (s : String) : Option Int :=
  match s.data.dropWhile (fun c => c.isWhitespace) with
  | '-' :: r =>
      if (digitsPrefixOf r).isEmpty then none
      else some (-(digitsVal (digitsPrefixOf r) : Int))
  | '+' :: r =>
      if (digitsPrefixOf r).isEmpty then none
      else some ((digitsVal (digitsPrefixOf r) : Int))
  | r =>
      if (digitsPrefixOf r).isEmpty then none
      else some ((digitsVal (digitsPrefixOf r) : Int))

/-- nextPage of PaginationBar (src/components/pagination-bar.tsx):
currentPage + 1 when currentPage < totalPages, else totalPages; every
comparison against NaN is false. -/
def paginationNextPage (currentPage : Option Int) (totalPages : Int) : Int :=
  match currentPage with
  | none => totalPages
  | some c => if c < totalPages then c + 1 else totalPages

/-- prevPage of PaginationBar (src/components/pagination-bar.tsx):
currentPage - 1 when currentPage > 1, else 1; every comparison against NaN
is false. -/
def paginationPrevPage (currentPage : Option Int) : Int :=
  match currentPage with
  | none => 1
  | some c => if c > 1 then c - 1 else 1

/-- Link target built by PaginationBar for a page number. -/
def pageHref (limit : Int) (pageNum : Int) : String :=
  "/?page=" ++ toString pageNum ++ "&limit=" ++ toString limit

/-- C7: for every value of the page URL parameter, including non-numeric
strings whose parse yields NaN, and every totalPages at least 1, the
previous-page link of the pagination bar targets a page number at least 1
and the next-page link targets a page number at most totalPages. -/
theorem pagination_links_within_range (page : String) (totalPages : Int)
    (_h : 1 ≤ totalPages) :
    1 ≤ paginationPrevPage (parseIntJS page) ∧
    paginationNextPage (parseIntJS page) totalPages ≤ totalPages := by
  constructor
  · cases hc : parseIntJS page with
    | none => simp [paginationPrevPage]
    | some c =>
      simp only [paginationPrevPage]
      split
      · omega
      · exact le_refl 1
  · cases hc : parseIntJS page with
    | none => simp [paginationNextPage]
    | some c =>
      simp only [paginationNextPage]
      split
      · omega
      · exact le_refl totalPages

/-- Witness for pagination_links_within_range on the non-numeric page
parameter "abc" with 5 total pages. -/
theorem pagination_links_within_range_witness :
    (1 : Int) ≤ 5 ∧
    (1 ≤ paginationPrevPage (parseIntJS "abc") ∧
      paginationNextPage (parseIntJS "abc") 5 ≤ 5) :=
  ⟨by decide, pagination_links_within_range "abc" 5 (by decide)⟩

/-- What the Comments component renders (comments popover, src/unnamed
comments component): the No Comments state or the list with its total. -/
inductive CommentsView where
  | noComments
  | commentsList (total : Nat) (comments : List IComment)
  deriving DecidableEq, Repr

/-- Comments component: when the comments query data is absent, or the
comments list is not non-empty, the No Comments state is rendered; otherwise
the list of comment cards with the response total. -/
def renderComments (data : Option ICommentResponse) : CommentsView :=
  match data with
  | none => CommentsView.noComments
  | some d =>
      if d.comments.length > 0 then CommentsView.commentsList d.total d.comments
      else CommentsView.noComments

/-- The visible content of a rendered comment card. -/
structure RenderedCommentCard where
  authorName : String
  authorEmail : String
  body : String
  deriving DecidableEq, Repr

/-- CommentCard component: when the user query for the comment author has no
data, the component returns nothing; otherwise the card. -/
def renderCommentCard (comment : IComment) (user : Option IUser) :
    Option RenderedCommentCard :=
  match user with
  | none => none
  | some u => some { authorName := comment.user.fullName,
                     authorEmail := u.email,
                     body := comment.body }

/-- C8: missing related entities render as empty or absent states: an absent
comments response or an empty comments list renders the No Comments state,
and a comment whose user cannot be fetched renders nothing. -/
theorem comments_missing_rendered_empty :
    renderComments none = CommentsView.noComments ∧
    (∀ resp : ICommentResponse, resp.comments = [] →
      renderComments (some resp) = CommentsView.noComments) ∧
    (∀ c : IComment, renderCommentCard c none = none) := by
  refine ⟨rfl, ?_, fun c => rfl⟩
  intro resp hresp
  simp [renderComments, hresp]

/-- Witness for comments_missing_rendered_empty on a concrete empty
response and a concrete comment. -/
theorem comments_missing_rendered_empty_witness :
    (ICommentResponse.mk [] 0 0 0).comments = [] ∧
    renderComments (some (ICommentResponse.mk [] 0 0 0)) = CommentsView.noComments ∧
    renderCommentCard (IComment.mk "c1" "b" "p1" (ICommentUser.mk "u1" "N N")) none = none :=
  ⟨rfl,
   comments_missing_rendered_empty.2.1 (ICommentResponse.mk [] 0 0 0) rfl,
   comments_missing_rendered_empty.2.2 (IComment.mk "c1" "b" "p1" (ICommentUser.mk "u1" "N N"))⟩

/-- The posts query as the posts page sees it: react-query's discriminated
status, with data present exactly on success. -/
inductive PostsQuery where
  | pending
  | error
  | success (data : IPostResponse)

/-- A PostCard element placed in the grid by the posts page, keyed by the
post id. -/
structure PostCardElement where
  key : String
  post : IPost
  deriving DecidableEq, Repr

/-- What the posts page (src/app/posts/page.tsx) renders: the spinner while
pending, the error view on error, or the card grid plus a pagination bar
whose totalPages is the ceiling of total / 9. -/
inductive PageView where
  | spinner
  | errorView (message : String)
  | content (children : List PostCardElement) (totalPages : Nat)
  deriving DecidableEq, Repr

/-- Posts page render function (src/app/posts/page.tsx): pending gives the
spinner, error gives the Error component with its message, success maps each
element of the response posts array to one PostCard element keyed by the
post id. -/
def renderPostsPage : PostsQuery → PageView
  | PostsQuery.pending => PageView.spinner
  | PostsQuery.error => PageView.errorView "Something went while fetching posts."
  | PostsQuery.success data =>
      PageView.content (data.posts.map (fun post => { key := post.id, post := post }))
        ⌈(data.total : ℚ) / 9⌉₊

/-- The PostCard elements a page view places in the grid. -/
def pageCardElements : PageView → List PostCardElement
  | PageView.content children _ => children
  | _ => []

/-- PostCard component (src/components/post-card.tsx): renders nothing until
the author query has data, otherwise the card for its post. -/
def renderPostCard (post : IPost) (user : Option IUser) : Option PostCardElement :=
  match user with
  | none => none
  | some _ => some { key := post.id, post := post }

theorem length_filterMap_of_isSome {α β : Type} (f : α → Option β) :
    ∀ l : List α, (∀ a ∈ l, (f a).isSome) → (l.filterMap f).length = l.length := by
  intro l
  induction l with
  | nil => intro; rfl
  | cons a rest ih =>
    intro h
    have ha := h a (List.mem_cons_self a rest)
    rcases hfa : f a with _ | b
    · rw [hfa] at ha
      exact absurd ha (by simp)
    · rw [List.filterMap_cons, hfa]
      simp only [List.length_cons]
      rw [ih (fun x hx => h x (List.mem_cons_of_mem a hx))]

/-- C5: given a successful post-list response, the posts page grid holds
exactly one PostCard element per element of the response posts array, in
order and keyed by the post id, for every posts array including the empty
one; and whenever the author of every post is available, the cards the
PostCard component renders are also one per post. -/
theorem posts_grid_one_card_per_post (data : IPostResponse) :
    pageCardElements (renderPostsPage (PostsQuery.success data)) =
      data.posts.map (fun post => { key := post.id, post := post }) ∧
    (pageCardElements (renderPostsPage (PostsQuery.success data))).length =
      data.posts.length ∧
    (∀ users : String → Option IUser,
      (∀ post ∈ data.posts, (users post.userId).isSome) →
      (data.posts.filterMap (fun post => renderPostCard post (users post.userId))).length =
        data.posts.length) := by
  refine ⟨rfl, by simp [renderPostsPage, pageCardElements], ?_⟩
  intro users h
  apply length_filterMap_of_isSome
  intro post hmem
  have := h post hmem
  rcases hu : users post.userId with _ | u
  · rw [hu] at this
    exact absurd this (by simp)
  · simp [renderPostCard, hu]

/-- Witness for posts_grid_one_card_per_post on a one-post response with its
author present. -/
theorem posts_grid_one_card_per_post_witness :
    (pageCardElements (renderPostsPage (PostsQuery.success
        (IPostResponse.mk [IPost.mk "p1" "t" "b" [] none "u1"] 1 0 9))) =
      [PostCardElement.mk "p1" (IPost.mk "p1" "t" "b" [] none "u1")] ∧
    (pageCardElements (renderPostsPage (PostsQuery.success
        (IPostResponse.mk [IPost.mk "p1" "t" "b" [] none "u1"] 1 0 9)))).length = 1 ∧
    ([IPost.mk "p1" "t" "b" [] none "u1"].filterMap
        (fun post => renderPostCard post
          ((fun _ => some (IUser.mk "u1" "F" "L" 30 "male" "e" "img" "2000-01-01"
            (IUserAddress.mk "a" "c" "s") "X")) post.userId))).length = 1) :=
  ⟨(posts_grid_one_card_per_post
      (IPostResponse.mk [IPost.mk "p1" "t" "b" [] none "u1"] 1 0 9)).1,
   (posts_grid_one_card_per_post
      (IPostResponse.mk [IPost.mk "p1" "t" "b" [] none "u1"] 1 0 9)).2.1,
   (posts_grid_one_card_per_post
      (IPostResponse.mk [IPost.mk "p1" "t" "b" [] none "u1"] 1 0 9)).2.2
     (fun _ => some (IUser.mk "u1" "F" "L" 30 "male" "e" "img" "2000-01-01"
        (IUserAddress.mk "a" "c" "s") "X")) (by decide)⟩

/-- C6: given an error status for the posts query, the posts page renders
the error view with its message and places no post cards. -/
theorem posts_page_error_no_cards :
    renderPostsPage PostsQuery.error =
      PageView.errorView "Something went while fetching posts." ∧
    pageCardElements (renderPostsPage PostsQuery.error) = [] :=
  ⟨rfl, rfl⟩

/-- JavaScript String.split with a one-character separator: splitting the
empty string gives one empty piece, and separators at the ends produce empty
pieces. -/
def jsSplitChar (sep : Char) : List Char → List String
  | [] => [""]
  | c :: rest =>
      match jsSplitChar sep rest with
      | [] => if c = sep then ["", ""] else [String.mk [c]]
      | s :: ss =>
          if c = sep then "" :: s :: ss
          else String.mk (c :: s.data) :: ss

/-- urlSlices of BreadcrumbNav: pathname.split on the slash, keeping only
non-empty slices. -/
def urlSlices (pathname : String) : List String :=
  (jsSplitChar '/' pathname.data).filter (fun slice => !(slice == ""))

/-- JavaScript Array.prototype.join with a separator string. -/
def jsArrayJoin (sep : String) : List String → String
  | [] => ""
  | [x] => x
  | x :: y :: rest => x ++ sep ++ jsArrayJoin sep (y :: rest)

/-- Label construction of BreadcrumbNav: charAt(0).toUpperCase() plus
slice(1). -/
def capitalizeJS (s : String) : String :=
  match s.data with
  | [] => ""
  | c :: cs => String.mk (Char.toUpper c :: cs)

/-- One rendered breadcrumb of BreadcrumbNav. -/
structure BreadcrumbEntry where
  href : String
  label : String
  deriving DecidableEq, Repr

/-- BreadcrumbNav (src/unnamed/part_003): one breadcrumb per non-empty slice
of the pathname, whose href joins the first slices and whose label is the
capitalized slice. -/
def breadcrumbs (pathname : String) : List BreadcrumbEntry :=
  let slices := urlSlices pathname
  slices.enum.map (fun iu =>
    { href := "/" ++ jsArrayJoin "/" (slices.take (iu.1 + 1)),
      label := capitalizeJS iu.2 })

theorem jsArrayJoin_append_single (sep x : String) :
    ∀ l : List String, l ≠ [] →
      jsArrayJoin sep (l ++ [x]) = jsArrayJoin sep l ++ sep ++ x := by
  intro l
  induction l with
  | nil => intro h; exact absurd rfl h
  | cons y rest ih =>
    intro _
    cases rest with
    | nil => rfl
    | cons z rest2 =>
      have hne : z :: rest2 ≠ [] := by simp
      show y ++ sep ++ jsArrayJoin sep ((z :: rest2) ++ [x]) =
        (y ++ sep ++ jsArrayJoin sep (z :: rest2)) ++ sep ++ x
      rw [ih hne]
      simp [String.append_assoc]

theorem breadcrumbs_getElem (pathname : String) (i : Nat)
    (h : i < (urlSlices pathname).length) (h2 : i < (breadcrumbs pathname).length) :
    (breadcrumbs pathname)[i] =
      { href := "/" ++ jsArrayJoin "/" ((urlSlices pathname).take (i + 1)),
        label := capitalizeJS ((urlSlices pathname)[i]) } := by
  simp [breadcrumbs, List.getElem_map, List.getElem_enum]

theorem breadcrumbs_length (pathname : String) :
    (breadcrumbs pathname).length = (urlSlices pathname).length := by
  simp [breadcrumbs]

/-- C10: for every pathname the breadcrumb navigation derives exactly one
breadcrumb per non-empty slash-separated segment, in order; the breadcrumb at
index i has href equal to a slash followed by the slash-join of the first
i + 1 segments and label equal to the segment with its first character
upper-cased; and each breadcrumb's href extends the previous one, so each
href is a prefix of the next. -/
theorem breadcrumb_per_segment (pathname : String) :
    (breadcrumbs pathname).length = (urlSlices pathname).length ∧
    (∀ i, i < (urlSlices pathname).length →
      (breadcrumbs pathname)[i]? = some
        { href := "/" ++ jsArrayJoin "/" ((urlSlices pathname).take (i + 1)),
          label := capitalizeJS (((urlSlices pathname)[i]?).getD "") }) ∧
    (∀ i b₁ b₂, (breadcrumbs pathname)[i]? = some b₁ →
      (breadcrumbs pathname)[i + 1]? = some b₂ →
      ∃ t, b₂.href = b₁.href ++ t) := by
  refine ⟨breadcrumbs_length pathname, ?_, ?_⟩
  · intro i h
    have h2 : i < (breadcrumbs pathname).length := by
      rw [breadcrumbs_length]
      exact h
    rw [List.getElem?_eq_getElem h2, breadcrumbs_getElem pathname i h h2,
        List.getElem?_eq_getElem h]
    rfl
  · intro i b₁ b₂ h1 h2
    have hlt2 : i + 1 < (breadcrumbs pathname).length := (List.getElem?_eq_some.1 h2).1
    have hlt2u : i + 1 < (urlSlices pathname).length := by
      rwa [breadcrumbs_length] at hlt2
    have hlt1 : i < (breadcrumbs pathname).length := Nat.lt_of_succ_lt hlt2
    have hlt1u : i < (urlSlices pathname).length := Nat.lt_of_succ_lt hlt2u
    rw [List.getElem?_eq_getElem hlt1, breadcrumbs_getElem pathname i hlt1u hlt1] at h1
    rw [List.getElem?_eq_getElem hlt2, breadcrumbs_getElem pathname (i + 1) hlt2u hlt2] at h2
    have e1 := Option.some.inj h1
    have e2 := Option.some.inj h2
    have htake : (urlSlices pathname).take (i + 1 + 1) =
        (urlSlices pathname).take (i + 1) ++ [(urlSlices pathname)[i + 1]] := by
      rw [List.take_succ, List.getElem?_eq_getElem hlt2u]
      rfl
    have hne : (urlSlices pathname).take (i + 1) ≠ [] := by
      have hl : ((urlSlices pathname).take (i + 1)).length = i + 1 := by
        rw [List.length_take]
        omega
      intro hnil
      rw [hnil] at hl
      simp at hl
    refine ⟨"/" ++ (urlSlices pathname)[i + 1], ?_⟩
    rw [← e1, ← e2]
    simp only []
    rw [htake, jsArrayJoin_append_single _ _ _ hne]
    simp [String.append_assoc]

/-- Witness for breadcrumb_per_segment on the pathname /posts/abc: the first
breadcrumb is /posts with label Posts, and /posts is a prefix of
/posts/abc. -/
theorem breadcrumb_per_segment_witness :
    ((0 : Nat) < (urlSlices "/posts/abc").length ∧
    (breadcrumbs "/posts/abc")[0]? = some
      { href := "/" ++ jsArrayJoin "/" ((urlSlices "/posts/abc").take (0 + 1)),
        label := capitalizeJS (((urlSlices "/posts/abc")[0]?).getD "") }) ∧
    (∃ t, (BreadcrumbEntry.mk "/posts/abc" "Abc").href =
      (BreadcrumbEntry.mk "/posts" "Posts").href ++ t) :=
  ⟨⟨by decide, (breadcrumb_per_segment "/posts/abc").2.1 0 (by decide)⟩,
   (breadcrumb_per_segment "/posts/abc").2.2 0
     (BreadcrumbEntry.mk "/posts" "Posts") (BreadcrumbEntry.mk "/posts/abc" "Abc")
     (by decide) (by decide)⟩

/-- Constant from src/components/sidebar/search-box.tsx. -/
def MAX_RECENT_ITEMS : Nat := 3

/-- The find over the concatenation of search results and recent posts
performed by handleSelect. -/
def jsFindPost (posts : List IPost) (id : String) : Option IPost :=
  posts.find? (fun post => post.id == id)

/-- The duplicate-removal filter of handleSelect: keep an element exactly
when the first index carrying its id is its own index. -/
def dedupByFirstIndex (posts : List IPost) : List IPost :=
  (posts.enum.filter (fun ip =>
    posts.findIdx (fun q => q.id == ip.2.id) == ip.1)).map Prod.snd

/-- handleSelect of the search box (src/components/sidebar/search-box.tsx):
find the selected post among search results and recent posts; when absent do
nothing, otherwise store the selected post in front of the recent posts,
with duplicates removed and truncated to MAX_RECENT_ITEMS. -/
def handleSelect (searchResults : Option (List IPost)) (recentPosts : List IPost)
    (id : String) : Option (List IPost) :=
  match jsFindPost (searchResults.getD [] ++ recentPosts) id with
  | none => none
  | some selectedPost =>
      some ((dedupByFirstIndex (selectedPost :: recentPosts)).take MAX_RECENT_ITEMS)

theorem dedupByFirstIndex_pairwise (posts : List IPost) :
    (dedupByFirstIndex posts).Pairwise (fun a b => a.id ≠ b.id) := by
  have h1 : posts.enum.Pairwise (fun x y : Nat × IPost => x.1 ≠ y.1) := by
    have hn : (posts.enum.map Prod.fst).Nodup := by
      rw [List.enum_map_fst]
      exact List.nodup_range posts.length
    exact List.pairwise_map.mp hn
  have h2 : (posts.enum.filter (fun ip =>
      posts.findIdx (fun q => q.id == ip.2.id) == ip.1)).Pairwise
        (fun x y : Nat × IPost => x.1 ≠ y.1) :=
    List.Pairwise.sublist (List.filter_sublist _) h1
  have h3 : (posts.enum.filter (fun ip =>
      posts.findIdx (fun q => q.id == ip.2.id) == ip.1)).Pairwise
        (fun x y : Nat × IPost => x.2.id ≠ y.2.id) := by
    refine List.Pairwise.imp_of_mem ?_ h2
    intro a b ha hb hne
    have pa := List.of_mem_filter ha
    have pb := List.of_mem_filter hb
    simp only [beq_iff_eq] at pa pb
    intro heq
    apply hne
    rw [← pa, ← pb]
    have hfun : (fun q : IPost => q.id == a.2.id) = (fun q : IPost => q.id == b.2.id) := by
      funext q
      rw [heq]
    rw [hfun]
  show ((posts.enum.filter (fun ip =>
      posts.findIdx (fun q => q.id == ip.2.id) == ip.1)).map Prod.snd).Pairwise
        (fun a b : IPost => a.id ≠ b.id)
  exact List.pairwise_map.mpr h3

theorem dedupByFirstIndex_cons_head (a : IPost) (l : List IPost) :
    ∃ rest, dedupByFirstIndex (a :: l) = a :: rest := by
  refine ⟨((List.enumFrom 1 l).filter (fun ip =>
    (a :: l).findIdx (fun q => q.id == ip.2.id) == ip.1)).map Prod.snd, ?_⟩
  simp only [dedupByFirstIndex, List.enum]
  rw [List.enumFrom]
  rw [List.filter_cons]
  have hp : ((a :: l).findIdx (fun q => q.id == a.id) == 0) = true := by
    rw [List.findIdx_cons]
    simp
  rw [if_pos hp]
  simp

/-- C3: after every selection handled by the search box's handleSelect that
stores a list, the stored recent list has at most MAX_RECENT_ITEMS = 3
entries, no two entries share an id, and the most recently selected post,
the one found for the selected id, is first. -/
theorem handleSelect_recent_invariants (searchResults : Option (List IPost))
    (recentPosts : List IPost) (id : String) (stored : List IPost)
    (h : handleSelect searchResults recentPosts id = some stored) :
    stored.length ≤ MAX_RECENT_ITEMS ∧
    stored.Pairwise (fun a b => a.id ≠ b.id) ∧
    stored.head? = jsFindPost (searchResults.getD [] ++ recentPosts) id := by
  unfold handleSelect at h
  cases hfind : jsFindPost (searchResults.getD [] ++ recentPosts) id with
  | none =>
    rw [hfind] at h
    exact Option.noConfusion h
  | some sel =>
    rw [hfind] at h
    have hstored : stored = (dedupByFirstIndex (sel :: recentPosts)).take MAX_RECENT_ITEMS :=
      (Option.some.inj h).symm
    obtain ⟨rest, hrest⟩ := dedupByFirstIndex_cons_head sel recentPosts
    refine ⟨?_, ?_, ?_⟩
    · rw [hstored, List.length_take]
      exact inf_le_left
    · rw [hstored]
      exact List.Pairwise.sublist (List.take_sublist _ _) (dedupByFirstIndex_pairwise _)
    · rw [hstored, hrest]
      simp [MAX_RECENT_ITEMS, List.take_succ_cons]

/-- Sample post used by concrete witnesses. -/
def samplePostA : IPost :=
  { id := "a", title := "t", body := "bo", tags := [], imageUrl := none, userId := "u1" }

/-- Second sample post used by concrete witnesses. -/
def samplePostB : IPost :=
  { id := "b", title := "s", body := "bo2", tags := [], imageUrl := none, userId := "u2" }

/-- Witness for handleSelect_recent_invariants: selecting post a from the
search results while post b is the stored recent list keeps both, newest
first, with distinct ids and within the size bound. -/
theorem handleSelect_recent_invariants_witness :
    handleSelect (some [samplePostA]) [samplePostB] "a" =
      some [samplePostA, samplePostB] ∧
    (([samplePostA, samplePostB] : List IPost).length ≤ MAX_RECENT_ITEMS ∧
     List.Pairwise (fun a b : IPost => a.id ≠ b.id) [samplePostA, samplePostB] ∧
     ([samplePostA, samplePostB] : List IPost).head? =
       jsFindPost ((some [samplePostA]).getD [] ++ [samplePostB]) "a") :=
  ⟨by decide,
   handleSelect_recent_invariants (some [samplePostA]) [samplePostB] "a"
     [samplePostA, samplePostB] (by decide)⟩
